import Mathlib

/-
Verification of the `sns_classes` repository (`classes.py`): a shallow
embedding of `SnsWESAnalysisOutput` and `SnsAnalysisSample` together with the
filesystem-facing helpers they call.  The repository code under `src/` is
embedded directly; the sibling `util` package (the `find.find` pattern
matcher, and the `AnalysisItem` path-registry base class with its
`set_dir`/`get_dirs`/`list_none` helpers) is not part of `src/`, so those
pieces are modelled from the specification, as marked in their doc comments.
-/

set_option maxHeartbeats 1000000

namespace SnsClasses

/-- Python exception outcomes relevant to `classes.py`: the custom
`AnalysisItemMissing` exception, plus the builtin exceptions that the code can
hit (`IOError` from `open`, `KeyError` from a dict subscript, `IndexError`
from a list subscript, `AttributeError` from reading an unset attribute). -/
inductive PyErr where
  | analysisItemMissing (msg : String)
  | ioError (path : String)
  | keyError (key : String)
  | indexError
  | attributeError (attr : String)
deriving DecidableEq

/-- Kind of a filesystem entry: regular file or directory. -/
inductive FKind where
  | file
  | dir
deriving DecidableEq

/-- One filesystem entry: its absolute path, its kind, and (for files) the
list of its lines as read by `readlines()` (newline characters stripped). -/
structure FSEntry where
  path : String
  kind : FKind
  lines : List String
deriving DecidableEq

/-- A finite snapshot of the filesystem, as a list of entries in stable
iteration order. -/
structure FS where
  entries : List FSEntry
deriving DecidableEq

/-- `os.path.exists`: an entry with this exact path exists (any kind). -/
def pathExists (fs : FS) (p : String) : Bool :=
  fs.entries.any (fun e => decide (e.path = p))

/-- Whether the path exists and is a directory (used only to state claims
about the distinction between existence and directory-ness). -/
def isDirAt (fs : FS) (p : String) : Bool :=
  fs.entries.any (fun e => decide (e.path = p ∧ e.kind = FKind.dir))

/-- `open(p).readlines()`: the lines of the regular file at `p`, or `none`
when no readable regular file is there (Python raises `IOError`). -/
def readLines (fs : FS) (p : String) : Option (List String) :=
  match fs.entries.find? (fun e => decide (e.path = p ∧ e.kind = FKind.file)) with
  | some e => some e.lines
  | none => none

/-- Fuel-bounded glob matching in the style of `fnmatch`: `*` matches any run
of characters, `?` matches one character, anything else matches literally.
Every recursive call shrinks `ps.length + cs.length`, so fuel
`ps.length + cs.length + 1` (as supplied by `globMatch`) is never
exhausted. -/
def globMatchF : Nat → List Char → List Char → Bool
  | 0, _, _ => false
  | _ + 1, [], cs => cs.isEmpty
  | f + 1, '*' :: ps, [] => globMatchF f ps []
  | f + 1, '*' :: ps, c :: cs => globMatchF f ps (c :: cs) || globMatchF f ('*' :: ps) cs
  | f + 1, '?' :: ps, _ :: cs => globMatchF f ps cs
  | _ + 1, '?' :: _, [] => false
  | f + 1, p :: ps, c :: cs => decide (p = c) && globMatchF f ps cs
  | _ + 1, _ :: _, [] => false

/-- Glob matching of a pattern against a candidate name. -/
def globMatch (ps cs : List Char) : Bool :=
  globMatchF (ps.length + cs.length + 1) ps cs

/-- The path relative to `searchDir` when the entry lies strictly below it:
`relUnder d p = some rel` iff `p = d ++ "/" ++ rel` (on characters). -/
def relUnder (searchDir path : String) : Option (List Char) :=
  let pre := searchDir.data ++ ['/']
  if pre.isPrefixOf path.data then some (path.data.drop pre.length) else none

/-- Last component of a relative path (the candidate name a glob pattern is
matched against). -/
def lastComponent (rel : List Char) : List Char :=
  (rel.splitOn '/').getLastD rel

/-- How a candidate name is matched against the inclusion patterns: an empty
pattern list accepts everything; `matchAll = true` corresponds to
`match_mode = 'all'` (every pattern must match), `false` to
`match_mode = 'any'`. -/
def inclusionsMatch (inclusions : List String) (matchAll : Bool) (nm : List Char) : Bool :=
  if inclusions.isEmpty then true
  else if matchAll then inclusions.all (fun p => globMatch p.data nm)
  else inclusions.any (fun p => globMatch p.data nm)

/-- Whether one filesystem entry is accepted by a pattern search rooted at
`searchDir` (kind filter, depth filter, inclusion and exclusion patterns). -/
def entryMatch (searchDir : String) (inclusions exclusions : List String)
    (kind : FKind) (matchAll levelZero : Bool) (e : FSEntry) : Bool :=
  match relUnder searchDir e.path with
  | none => false
  | some rel =>
    decide (e.kind = kind)
    && (!levelZero || !(rel.contains '/'))
    && inclusionsMatch inclusions matchAll (lastComponent rel)
    && !(exclusions.any (fun p => globMatch p.data (lastComponent rel)))

/-- Modelled from the spec: `util.find.find`, the Pattern Matcher (spec
section 4.1), absent from `src/`.  Resolves inclusion/exclusion glob patterns
against the subtree of `searchDir`; `levelZero = true` models
`level_limit = 0` (immediate children only) and `numLimit` models
`num_limit` (truncation of the result, never an error); the result keeps the
stable iteration order of the filesystem; an empty result is valid and no
exception is ever raised by the matcher itself. -/
def findAll (fs : FS) (searchDir : String) (inclusions exclusions : List String)
    (kind : FKind) (matchAll : Bool) (numLimit : Option Nat) (levelZero : Bool) : List String :=
  let hits := (fs.entries.filter
    (entryMatch searchDir inclusions exclusions kind matchAll levelZero)).map (fun e => e.path)
  match numLimit with
  | none => hits
  | some n => hits.take n

/-- Lookup in an association list keyed by strings (first binding wins, the
way a Python dict with unique keys behaves). -/
def lookupAssoc {α : Type} : List (String × α) → String → Option α
  | [], _ => none
  | p :: rest, k => if p.1 = k then some p.2 else lookupAssoc rest k

/-- Dict assignment `m[k] = v`: replaces the binding of `k` when present,
otherwise appends a new binding. -/
def setAssoc {α : Type} : List (String × α) → String → α → List (String × α)
  | [], k, v => [(k, v)]
  | p :: rest, k, v => if p.1 = k then (k, v) :: rest else p :: setAssoc rest k v

/-- Modelled from the spec: `util.tools` list reducer used as `self.list_none`
(Path Registry, spec section 3), absent from `src/`: converts a sequence to
`some(single path)` only when exactly one element exists, else `none`. -/
def listNone (l : List String) : Option String :=
  match l with
  | [x] => some x
  | _ => none

/-- `csv.reader` parsing of one line: a blank line yields no fields, any
other line is split on commas (quoting is not used by this repository's
fixture files). -/
def csvSplit (line : String) : List String :=
  if line.data = [] then [] else (line.data.splitOn ',').map (fun cs => String.mk cs)

/-- A row as produced by `csv.DictReader`: header name paired with cell
value. -/
abbrev Row := List (String × String)

/-- `csv.DictReader` over the lines of a file: the first line is the header,
blank rows are skipped, every other row is keyed by the header fields. -/
def dictReaderRows (lines : List String) : List Row :=
  match lines with
  | [] => []
  | header :: rest =>
    let hs := csvSplit header
    (rest.filter (fun l => !(csvSplit l).isEmpty)).map (fun l => hs.zip (csvSplit l))

/-- Substring test, modelling Python's `pat in line`. -/
def containsSub (pat s : String) : Bool :=
  (List.range (s.data.length + 1)).any (fun i => pat.data.isPrefixOf (s.data.drop i))

/-- One recorded validation check: `{'status': ..., 'note': ...}`. -/
structure VCheck where
  status : Bool
  note : String
deriving DecidableEq

/-- State of a `SnsWESAnalysisOutput` object.  The `dirs`/`files` registries
are modelled from the spec (Path Registry, spec section 3) since the
`AnalysisItem` base class is absent from `src/`: a named-key store with total
lookup (absent key yields the empty sequence).  The schema
`analysis_output_index` only ever has its keys read by `classes.py`, so it is
carried as the list of its keys. -/
structure Analysis where
  aid : String
  dir : String
  resultsId : String
  outputIndex : List String
  dirs : List (String × List String)
  files : List (String × List String)
  staticFiles : List (String × String)
  isValid : Option Bool
  validations : List (String × VCheck)
deriving DecidableEq

/-- `self.get_dirs(name)` reduced through the Path Registry's total lookup:
an absent key yields the empty sequence (spec section 3). -/
def getDirs (a : Analysis) (name : String) : List String :=
  (lookupAssoc a.dirs name).getD []

/-- `SnsWESAnalysisOutput.expected_static_files`: the fixed mapping of four
well-known logical names to fixed filenames directly under the analysis
dir. -/
def expectedStaticFiles (dir : String) : List (String × String) :=
  [("paired_samples", dir ++ "/samples.pairs.csv"),
   ("samples_fastq_raw", dir ++ "/samples.fastq-raw.csv"),
   ("settings", dir ++ "/settings.txt"),
   ("summary_combined_wes", dir ++ "/summary-combined.wes.csv")]

/-- The directory search performed by `_init_dirs` for one schema key:
`find.find(search_dir = self.dir, inclusion_patterns = name,
search_type = "dir", num_limit = 1, level_limit = 0)`. -/
def dirSearch (fs : FS) (dir name : String) : List String :=
  findAll fs dir [name] [] FKind.dir false (some 1) true

/-- `SnsWESAnalysisOutput._init_dirs`: for every schema key other than
`_parent`, stores the depth-0, limit-1 directory search result under that key
(`set_dir` is the Path Registry store operation). -/
def initDirsFrom (fs : FS) (dir : String) (acc : List (String × List String)) :
    List String → List (String × List String)
  | [] => acc
  | name :: rest =>
    if name = "_parent" then initDirsFrom fs dir acc rest
    else initDirsFrom fs dir (setAssoc acc name (dirSearch fs dir name)) rest

/-- `SnsWESAnalysisOutput._init_files`: resolves `targets_bed` as the single
`*.bed` file (excluding `*.pad10.bed`) directly under the analysis dir. -/
def initFiles (fs : FS) (dir : String) : List (String × List String) :=
  setAssoc [] "targets_bed" (findAll fs dir ["*.bed"] ["*.pad10.bed"] FKind.file false (some 1) true)

/-- The object state after `__init__` has run `_init_attrs`, `_init_dirs`,
`_init_files` and `_init_static_files`, before any validation: `is_valid` is
still unset and no validations are recorded.  The caller is taken to pass an
absolute `dir` (the code applies `os.path.abspath`). -/
def initAnalysis (fs : FS) (dir aid resultsId : String) (outputIndex : List String) : Analysis :=
  ⟨aid, dir, resultsId, outputIndex,
   initDirsFrom fs dir [] outputIndex,
   initFiles fs dir,
   expectedStaticFiles dir,
   none, []⟩

/-- `SnsWESAnalysisOutput.get_qsub_logfiles`: resolves the queue-log
directory (argument, or else the single resolved `logs-qsub` registry entry);
raises `AnalysisItemMissing` when unresolved, otherwise lists every file
under it (unbounded depth, no name filter). -/
def getQsubLogfiles (fs : FS) (a : Analysis) (logdir : Option String) :
    Except PyErr (List String) :=
  let ld := match logdir with
    | some d => some d
    | none => listNone (getDirs a "logs-qsub")
  match ld with
  | none => Except.error (PyErr.analysisItemMissing "Qsub log dir not found for the analysis")
  | some d => Except.ok (findAll fs d [] [] FKind.file false none false)

/-- The per-file loop of `check_qsub_log_errors_present`: opens each log file
in turn (an unreadable file raises `IOError`) and accumulates whether any
line of any file contains one of the error patterns. -/
def anyFileHasError (fs : FS) (errPatterns : List String) :
    List String → Except PyErr Bool
  | [] => Except.ok false
  | f :: rest =>
    match readLines fs f with
    | none => Except.error (PyErr.ioError f)
    | some ls =>
      let has := ls.any (fun l => errPatterns.any (fun p => containsSub p l))
      (anyFileHasError fs errPatterns rest).map (fun b => has || b)

/-- `SnsWESAnalysisOutput.check_qsub_log_errors_present` with its default
`err_patterns = ("ERROR:",)`: fetches the log files when not passed, raises
`AnalysisItemMissing` when the list is empty, and otherwise reports whether
any log line contains an error pattern. -/
def checkQsubLogErrorsPresent (fs : FS) (a : Analysis) (logFiles : Option (List String))
    (errPatterns : List String) : Except PyErr Bool := do
  let lfs ← match logFiles with
    | some l => pure l
    | none => getQsubLogfiles fs a none
  if lfs.isEmpty then
    Except.error (PyErr.analysisItemMissing "Qsub log files not found for the analysis.")
  else
    anyFileHasError fs errPatterns lfs

/-- `SnsWESAnalysisOutput.get_summary_combined_contents`: resolves the
`summary_combined_wes` static-file path (argument, or else from
`self.static_files`), raising `AnalysisItemMissing` when unset, and parses
the file with `csv.DictReader` (an unreadable file raises `IOError`). -/
def getSummaryCombinedContents (fs : FS) (a : Analysis) (fileArg : Option String) :
    Except PyErr (List Row) :=
  let f := match fileArg with
    | some x => some x
    | none => lookupAssoc a.staticFiles "summary_combined_wes"
  match f with
  | none => Except.error (PyErr.analysisItemMissing
      "Could not find the summary_combined_wes_file (\"summary-combined.wes.csv\") for the analysis.")
  | some path =>
    match readLines fs path with
    | none => Except.error (PyErr.ioError path)
    | some lines => Except.ok (dictReaderRows lines)

/-- The row loop of `summary_combined_contains_errors`: for each row, reads
`row['#SAMPLE']` (a missing key raises `KeyError`) and records the sample ID
when any cell outside the `#SAMPLE` column equals the error pattern. -/
def collectSummaryErrors (errPattern : String) : List Row → Except PyErr (List String)
  | [] => Except.ok []
  | row :: rest =>
    match lookupAssoc row "#SAMPLE" with
    | none => Except.error (PyErr.keyError "#SAMPLE")
    | some sid =>
      let offending := (row.filter (fun p => decide (p.1 ≠ "#SAMPLE"))).any
        (fun p => decide (p.2 = errPattern))
      (collectSummaryErrors errPattern rest).map
        (fun acc => if offending then sid :: acc else acc)

/-- `SnsWESAnalysisOutput.summary_combined_contains_errors`: fetches the
parsed summary rows when not passed (or passed empty, which is falsy), scans
every non-identifier cell for the error pattern, and reports whether any row
offends (the offending sample IDs go to the logger only). -/
def summaryCombinedContainsErrors (fs : FS) (a : Analysis) (rowsArg : Option (List Row))
    (errPattern : String) : Except PyErr Bool := do
  let rows ← match rowsArg with
    | some rs => if rs.isEmpty then getSummaryCombinedContents fs a none else pure rs
    | none => getSummaryCombinedContents fs a none
  let errs ← collectSummaryErrors errPattern rows
  Except.ok (!errs.isEmpty)

/-- Python `str` of a bool, for the diagnostic notes. -/
def pyBool (b : Bool) : String := if b then "True" else "False"

/-- Python `str` of one `(key, value, exists)` tuple recorded in the
`expected_static_files_exist` note. -/
def staticTriple (t : String × String × Bool) : String :=
  "('" ++ t.1 ++ "', '" ++ t.2.1 ++ "', " ++ pyBool t.2.2 ++ ")"

/-- The note of the `expected_static_files_exist` check. -/
def staticNote (l : List (String × String × Bool)) : String :=
  "Whether or not all of the expected files in the analysis exist;\n"
    ++ String.intercalate "\n" (l.map staticTriple)

/-- `SnsWESAnalysisOutput.validate`: runs the four checks in order, recording
each into `self.validations` as it goes, and returns `all` of the recorded
statuses.  The result pairs the returned value (or the propagated exception)
with the final contents of `self.validations`, so that an exception from
check 3 or 4 leaves the earlier checks recorded and the later ones absent. -/
def validateA (fs : FS) (a : Analysis) : Except PyErr Bool × List (String × VCheck) :=
  let v1 : String × VCheck :=
    ("dir_exists",
     ⟨pathExists fs a.dir,
      "Whether or not the analysis directory (" ++ a.dir ++ ") exists"⟩)
  let esf := (expectedStaticFiles a.dir).map (fun p => (p.1, p.2, pathExists fs p.2))
  let v2 : String × VCheck :=
    ("expected_static_files_exist", ⟨esf.all (fun t => t.2.2), staticNote esf⟩)
  let vs2 := [v1, v2]
  match checkQsubLogErrorsPresent fs a none ["ERROR:"] with
  | Except.error e => (Except.error e, vs2)
  | Except.ok qerr =>
    let v3 : String × VCheck :=
      ("no_qsub_log_errors_present",
       ⟨!qerr, "Whether or not errors are present in the qsub logs"⟩)
    let vs3 := vs2 ++ [v3]
    match summaryCombinedContainsErrors fs a none "X" with
    | Except.error e => (Except.error e, vs3)
    | Except.ok serr =>
      let v4 : String × VCheck :=
        ("no_summary_combined_errors",
         ⟨!serr, "Whether or not entries are present in the summary combined file"⟩)
      let vs := vs3 ++ [v4]
      (Except.ok (vs.all (fun p => p.2.status)), vs)

/-- The analysis object with `is_valid` and `validations` filled in after a
successful `validate()` call during `__init__`. -/
def withValidation (a : Analysis) (b : Bool) (vs : List (String × VCheck)) : Analysis :=
  ⟨a.aid, a.dir, a.resultsId, a.outputIndex, a.dirs, a.files, a.staticFiles, some b, vs⟩

/-- `SnsWESAnalysisOutput.__init__`: builds the object state and, unless
`debug` is set, immediately runs `validate()` and stores its result in
`self.is_valid`; an exception raised by `validate()` propagates out of the
constructor, so no object is produced. -/
def mkAnalysis (fs : FS) (dir aid resultsId : String) (outputIndex : List String)
    (debug : Bool) : Except PyErr Analysis :=
  let a := initAnalysis fs dir aid resultsId outputIndex
  if debug then Except.ok a
  else
    match validateA fs a with
    | (Except.ok b, vs) => Except.ok (withValidation a b vs)
    | (Except.error e, _) => Except.error e

/-- First field of a csv line, as appended by the row loop of
`get_samplesIDs_from_samples_fastq_raw` (defined when the parsed row is
nonempty). -/
def firstField (line : String) : String :=
  (csvSplit line).headD ""

/-- The row loop of `get_samplesIDs_from_samples_fastq_raw`: `row[0]` of each
csv row in order; a blank line parses to an empty row and raises
`IndexError`. -/
def firstCols : List String → Except PyErr (List String)
  | [] => Except.ok []
  | line :: rest =>
    match csvSplit line with
    | [] => Except.error PyErr.indexError
    | c :: _ => (firstCols rest).map (fun l => c :: l)

/-- `SnsWESAnalysisOutput.get_samplesIDs_from_samples_fastq_raw`: resolves
the `samples_fastq_raw` static-file path (argument, or else from
`self.static_files`), raising `AnalysisItemMissing` when unset; reads the
manifest (an unreadable file raises `IOError`), collects the first column of
every row and de-duplicates it (`list(set(...))`, whose order Python leaves
unspecified; the model keeps `List.dedup`). -/
def getSamplesIDsFromSamplesFastqRaw (fs : FS) (a : Analysis) (fileArg : Option String) :
    Except PyErr (List String) :=
  let f := match fileArg with
    | some x => some x
    | none => lookupAssoc a.staticFiles "samples_fastq_raw"
  match f with
  | none => Except.error (PyErr.analysisItemMissing
      "The \"samples_fastq_raw\" file could not be found for the analysis.")
  | some path =>
    match readLines fs path with
    | none => Except.error (PyErr.ioError path)
    | some lines => (firstCols lines).map List.dedup

/-- The configuration snapshot built by
`SnsWESAnalysisOutput.get_analysis_config` and handed to child samples. -/
structure AnalysisConfig where
  analysisId : String
  analysisDir : String
  resultsId : String
  dirs : List (String × List String)
  files : List (String × List String)
  staticFiles : List (String × String)
  analysisIsValid : Bool
deriving DecidableEq

/-- `SnsWESAnalysisOutput.get_analysis_config`: packages the object state
into a plain dict.  It reads `self.is_valid`, which is never assigned when
the object was constructed in debug mode and `validate()`'s result was not
stored, so that read raises `AttributeError` (modelled from the spec:
`is_valid` is tri-state, unset until validation runs, and the `AnalysisItem`
base class absent from `src/` does not predefine it). -/
def getAnalysisConfig (a : Analysis) : Except PyErr AnalysisConfig :=
  match a.isValid with
  | none => Except.error (PyErr.attributeError "is_valid")
  | some b => Except.ok ⟨a.aid, a.dir, a.resultsId, a.dirs, a.files, a.staticFiles, b⟩

/-- State of a `SnsAnalysisSample` object. -/
structure Sample where
  sid : String
  analysisConfig : AnalysisConfig
  searchPattern : String
  analysisId : String
  analysisDir : String
  resultsId : String
  staticFiles : List (String × String)
  analysisIsValid : Bool
  dirs : List (String × List String)
  files : List (String × List String)
deriving DecidableEq

/-- `SnsAnalysisSample._init_dirs`: copies every parent registry entry except
`_parent` into the sample's own registry. -/
def initSampleDirs (acc : List (String × List String)) :
    List (String × List String) → List (String × List String)
  | [] => acc
  | p :: rest =>
    if p.1 = "_parent" then initSampleDirs acc rest
    else initSampleDirs (setAssoc acc p.1 p.2) rest

/-- `SnsAnalysisSample._init_files`: copies every parent file entry. -/
def initSampleFiles (acc : List (String × List String)) :
    List (String × List String) → List (String × List String)
  | [] => acc
  | p :: rest => initSampleFiles (setAssoc acc p.1 p.2) rest

/-- `SnsAnalysisSample.__init__`: snapshots the parent configuration, sets
the per-unit `search_pattern = "<id>*"`, and copies the parent registries. -/
def mkSample (i : String) (cfg : AnalysisConfig) : Sample :=
  ⟨i, cfg, i ++ "*",
   cfg.analysisId, cfg.analysisDir, cfg.resultsId, cfg.staticFiles, cfg.analysisIsValid,
   initSampleDirs [] cfg.dirs, initSampleFiles [] cfg.files⟩

/-- The per-sample loop of `SnsWESAnalysisOutput.get_samples`: each iteration
calls `self.get_analysis_config()` afresh and builds one `SnsAnalysisSample`
from it. -/
def samplesLoop (a : Analysis) : List String → Except PyErr (List Sample)
  | [] => Except.ok []
  | i :: rest => do
    let cfg ← getAnalysisConfig a
    (samplesLoop a rest).map (fun ss => mkSample i cfg :: ss)

/-- `SnsWESAnalysisOutput.get_samples`: derives the sample IDs from the
raw-fastq manifest when none (or an empty, hence falsy, list) is passed, then
builds one sample per ID. -/
def getSamples (fs : FS) (a : Analysis) (idsArg : Option (List String)) :
    Except PyErr (List Sample) := do
  let ids ← match idsArg with
    | some l => if l.isEmpty then getSamplesIDsFromSamplesFastqRaw fs a none else pure l
    | none => getSamplesIDsFromSamplesFastqRaw fs a none
  samplesLoop a ids

/-- `SnsAnalysisSample.get_output_files`: reduces the step's entry of the
inherited `analysis_config['dirs']` registry to a single directory
(`list_none`); when unresolved raises `AnalysisItemMissing`, else searches it
for files matching both the caller's pattern and the unit's own
`search_pattern` (`match_mode = 'all'`, unbounded depth, no result limit). -/
def getOutputFiles (fs : FS) (s : Sample) (analysisStep pat : String) :
    Except PyErr (List String) :=
  match listNone ((lookupAssoc s.analysisConfig.dirs analysisStep).getD []) with
  | none => Except.error (PyErr.analysisItemMissing
      ("search_dir not found for " ++ analysisStep ++ ", dir: None"))
  | some d => Except.ok (findAll fs d [pat, s.searchPattern] [] FKind.file true none false)

/-- A concrete healthy analysis output tree, used by the witnesses. -/
def fixtureFS : FS := ⟨[
  ⟨"/r", FKind.dir, []⟩,
  ⟨"/r/logs-qsub", FKind.dir, []⟩,
  ⟨"/r/logs-qsub/log1.txt", FKind.file, ["all good"]⟩,
  ⟨"/r/samples.pairs.csv", FKind.file, ["S1,S2"]⟩,
  ⟨"/r/samples.fastq-raw.csv", FKind.file, ["S1,a.fq", "S1,b.fq", "S2,c.fq"]⟩,
  ⟨"/r/settings.txt", FKind.file, ["GENOME hg19"]⟩,
  ⟨"/r/summary-combined.wes.csv", FKind.file, ["#SAMPLE,QC", "S1,ok", "S2,ok"]⟩,
  ⟨"/r/BAM-DD", FKind.dir, []⟩,
  ⟨"/r/BAM-DD/S1.bam", FKind.file, []⟩,
  ⟨"/r/BAM-DD/S2.bam", FKind.file, []⟩,
  ⟨"/r/targets.bed", FKind.file, []⟩]⟩

/-- The analysis object built on the healthy fixture tree. -/
def fixtureAnalysis : Analysis :=
  initAnalysis fixtureFS "/r" "A" "R" ["logs-qsub", "BAM-DD"]

/-- The healthy fixture tree with one `X` error cell in its summary table. -/
def fixtureFSX : FS := ⟨[
  ⟨"/r", FKind.dir, []⟩,
  ⟨"/r/logs-qsub", FKind.dir, []⟩,
  ⟨"/r/logs-qsub/log1.txt", FKind.file, ["all good"]⟩,
  ⟨"/r/samples.pairs.csv", FKind.file, ["S1,S2"]⟩,
  ⟨"/r/samples.fastq-raw.csv", FKind.file, ["S1,a.fq", "S1,b.fq", "S2,c.fq"]⟩,
  ⟨"/r/settings.txt", FKind.file, ["GENOME hg19"]⟩,
  ⟨"/r/summary-combined.wes.csv", FKind.file, ["#SAMPLE,QC", "S1,X", "S2,ok"]⟩,
  ⟨"/r/BAM-DD", FKind.dir, []⟩,
  ⟨"/r/BAM-DD/S1.bam", FKind.file, []⟩,
  ⟨"/r/BAM-DD/S2.bam", FKind.file, []⟩,
  ⟨"/r/targets.bed", FKind.file, []⟩]⟩

/-- The analysis object built on the tree with the `X` summary cell. -/
def fixtureAnalysisX : Analysis :=
  initAnalysis fixtureFSX "/r" "A" "R" ["logs-qsub", "BAM-DD"]

/-- A root that exists yet holds nothing: the static files are absent. -/
def fixtureFSBare : FS := ⟨[⟨"/r", FKind.dir, []⟩]⟩

/-- The analysis object built on the bare root. -/
def fixtureAnalysisBare : Analysis :=
  initAnalysis fixtureFSBare "/r" "A" "R" []

/-- A parent configuration snapshot with one resolved step directory, for the
sample-lookup witnesses. -/
def fixtureSampleConfig : AnalysisConfig :=
  ⟨"A", "/r", "R", [("BAM-DD", ["/r/BAM-DD"]), ("logs-qsub", ["/r/logs-qsub"])],
   [("targets_bed", ["/r/targets.bed"])], expectedStaticFiles "/r", true⟩

/-- The sample context with id `S1` built from the fixture configuration. -/
def fixtureSample : Sample :=
  mkSample "S1" fixtureSampleConfig

/-- A sample context whose configuration has an empty directories registry. -/
def fixtureSampleNoDirs : Sample :=
  mkSample "S1" ⟨"A", "/r", "R", [], [], [], true⟩

theorem lookupAssoc_setAssoc_self {α : Type} (m : List (String × α)) (k : String) (v : α) :
    lookupAssoc (setAssoc m k v) k = some v := by
  induction m with
  | nil => simp [setAssoc, lookupAssoc]
  | cons p rest ih =>
    by_cases h : p.1 = k
    · simp [setAssoc, lookupAssoc, h]
    · simp [setAssoc, lookupAssoc, h, ih]

theorem lookupAssoc_setAssoc_ne {α : Type} (m : List (String × α)) (k k2 : String) (v : α)
    (h : k2 ≠ k) : lookupAssoc (setAssoc m k v) k2 = lookupAssoc m k2 := by
  have hks : k ≠ k2 := Ne.symm h
  induction m with
  | nil => simp [setAssoc, lookupAssoc, hks]
  | cons p rest ih =>
    by_cases hp : p.1 = k
    · simp [setAssoc, lookupAssoc, hp, hks]
    · simp [setAssoc, lookupAssoc, hp, ih]

theorem lookupAssoc_initDirsFrom_not_mem (fs : FS) (dir : String) (keys : List String)
    (acc : List (String × List String)) (key : String) (h : key ∉ keys) :
    lookupAssoc (initDirsFrom fs dir acc keys) key = lookupAssoc acc key := by
  induction keys generalizing acc with
  | nil => rfl
  | cons name rest ih =>
    have hne : key ≠ name := fun hh => h (hh ▸ List.mem_cons_self name rest)
    have hrest : key ∉ rest := fun hh => h (List.mem_cons_of_mem name hh)
    by_cases hp : name = "_parent"
    · simp [initDirsFrom, hp, ih _ hrest]
    · simp [initDirsFrom, hp, ih _ hrest, lookupAssoc_setAssoc_ne _ _ _ _ hne]

theorem lookupAssoc_initDirsFrom_mem (fs : FS) (dir : String) (keys : List String)
    (acc : List (String × List String)) (key : String) (hmem : key ∈ keys)
    (hpar : key ≠ "_parent") :
    lookupAssoc (initDirsFrom fs dir acc keys) key = some (dirSearch fs dir key) := by
  induction keys generalizing acc with
  | nil => exact absurd hmem (List.not_mem_nil key)
  | cons name rest ih =>
    by_cases hrest : key ∈ rest
    · by_cases hp : name = "_parent"
      · simp [initDirsFrom, hp, ih _ hrest]
      · simp [initDirsFrom, hp, ih _ hrest]
    · have hname : key = name := by
        rcases List.mem_cons.mp hmem with h | h
        · exact h
        · exact absurd h hrest
      subst hname
      simp [initDirsFrom, hpar,
        lookupAssoc_initDirsFrom_not_mem fs dir rest _ key hrest,
        lookupAssoc_setAssoc_self]

/-- Claim C7: for every schema key other than the reserved `_parent` key, any
constructed analysis object's directories registry holds an entry for that
key, and that entry is exactly the result of the depth-0, result-limit-1
directory search for the key; no key is silently dropped. -/
theorem dirs_registry_total_over_schema (fs : FS) (dir aid rid : String)
    (outputIndex : List String) (debug : Bool) (a : Analysis) (key : String)
    (hmk : mkAnalysis fs dir aid rid outputIndex debug = Except.ok a)
    (hmem : key ∈ outputIndex) (hpar : key ≠ "_parent") :
    lookupAssoc a.dirs key =
      some (findAll fs dir [key] [] FKind.dir false (some 1) true) := by
  have hdirs : a.dirs = initDirsFrom fs dir [] outputIndex := by
    unfold mkAnalysis at hmk
    by_cases hd : debug
    · simp [hd] at hmk
      subst hmk
      rfl
    · simp [hd] at hmk
      rcases hv : validateA fs (initAnalysis fs dir aid rid outputIndex) with ⟨r, vs⟩
      rw [hv] at hmk
      cases r with
      | error e => simp at hmk
      | ok b =>
        simp at hmk
        subst hmk
        rfl
  rw [hdirs]
  exact lookupAssoc_initDirsFrom_mem fs dir outputIndex [] key hmem hpar

theorem findAll_eq_nil_of_rel_none (fs : FS) (dir : String) (incl excl : List String)
    (kind : FKind) (ma : Bool) (nl : Option Nat) (lz : Bool)
    (hsub : ∀ e ∈ fs.entries, relUnder dir e.path = none) :
    findAll fs dir incl excl kind ma nl lz = [] := by
  have hfilter : fs.entries.filter (entryMatch dir incl excl kind ma lz) = [] := by
    rw [List.filter_eq_nil_iff]
    intro e he
    simp [entryMatch, hsub e he]
  cases nl <;> simp [findAll, hfilter]

theorem initDirsFrom_values_nil (fs : FS) (dir : String)
    (hfind : ∀ name, dirSearch fs dir name = [])
    (keys : List String) (acc : List (String × List String))
    (hacc : ∀ k v, lookupAssoc acc k = some v → v = []) :
    ∀ k v, lookupAssoc (initDirsFrom fs dir acc keys) k = some v → v = [] := by
  induction keys generalizing acc with
  | nil => exact hacc
  | cons name rest ih =>
    by_cases hp : name = "_parent"
    · simpa [initDirsFrom, hp] using ih acc hacc
    · have hacc2 : ∀ k v,
          lookupAssoc (setAssoc acc name (dirSearch fs dir name)) k = some v → v = [] := by
        intro k v hl
        by_cases hk : k = name
        · subst hk
          rw [lookupAssoc_setAssoc_self] at hl
          rw [hfind k] at hl
          exact (Option.some_inj.mp hl).symm
        · rw [lookupAssoc_setAssoc_ne _ _ _ _ hk] at hl
          exact hacc k v hl
      simpa [initDirsFrom, hp] using ih _ hacc2

theorem getDirs_initAnalysis_nil (fs : FS) (dir aid rid : String) (outputIndex : List String)
    (hsub : ∀ e ∈ fs.entries, relUnder dir e.path = none) (name : String) :
    getDirs (initAnalysis fs dir aid rid outputIndex) name = [] := by
  have hfind : ∀ nm, dirSearch fs dir nm = [] := fun nm =>
    findAll_eq_nil_of_rel_none fs dir [nm] [] FKind.dir false (some 1) true hsub
  have hvals := initDirsFrom_values_nil fs dir hfind outputIndex []
    (fun k v hl => by simp [lookupAssoc] at hl)
  unfold getDirs initAnalysis
  cases hl : lookupAssoc (initDirsFrom fs dir [] outputIndex) name with
  | none => rfl
  | some v => simpa using hvals name v hl

theorem validateA_of_logdir_none (fs : FS) (a : Analysis)
    (h : listNone (getDirs a "logs-qsub") = none) :
    (validateA fs a).1 =
      Except.error (PyErr.analysisItemMissing "Qsub log dir not found for the analysis") ∧
    (validateA fs a).2.map Prod.fst = ["dir_exists", "expected_static_files_exist"] := by
  have hq : checkQsubLogErrorsPresent fs a none ["ERROR:"] =
      Except.error (PyErr.analysisItemMissing "Qsub log dir not found for the analysis") := by
    simp [checkQsubLogErrorsPresent, getQsubLogfiles, h, Bind.bind, Except.bind]
  unfold validateA
  rw [hq]
  exact ⟨rfl, rfl⟩

/-- Claim C2: when the `logs-qsub` entry of the directories registry was not
resolved to a single directory, `validate()` raises `AnalysisItemMissing`
(the `RequiredItemMissing` condition); the exception is not caught internally
(the model returns it to the caller), and the last two checks of the battery
are never recorded in the validations mapping. -/
theorem validate_aborts_when_qsub_logdir_unresolved (fs : FS) (a : Analysis)
    (h : listNone (getDirs a "logs-qsub") = none) :
    (validateA fs a).1 =
      Except.error (PyErr.analysisItemMissing "Qsub log dir not found for the analysis") ∧
    (validateA fs a).2.map Prod.fst = ["dir_exists", "expected_static_files_exist"] :=
  validateA_of_logdir_none fs a h

/-- Witness for C2 at a concrete analysis with no resolved `logs-qsub`
directory. -/
theorem validate_aborts_when_qsub_logdir_unresolved_witness :
    (validateA ⟨[]⟩ (initAnalysis ⟨[]⟩ "/r" "A" "R" [])).1 =
      Except.error (PyErr.analysisItemMissing "Qsub log dir not found for the analysis") ∧
    (validateA ⟨[]⟩ (initAnalysis ⟨[]⟩ "/r" "A" "R" [])).2.map Prod.fst =
      ["dir_exists", "expected_static_files_exist"] :=
  validate_aborts_when_qsub_logdir_unresolved ⟨[]⟩ (initAnalysis ⟨[]⟩ "/r" "A" "R" []) rfl

/-- Claim C3: a non-debug construction on a root directory that does not
exist (no filesystem entry at the root, nothing below it) fails fast by
propagating `AnalysisItemMissing` out of the constructor; and in general no
non-debug construction whose root fails the existence test can complete with
`is_valid = true` (when it completes at all, `is_valid` is `false`). -/
theorem construction_fails_fast_on_missing_root (fs : FS) (dir aid rid : String)
    (outputIndex : List String)
    (hsub : ∀ e ∈ fs.entries, relUnder dir e.path = none) :
    mkAnalysis fs dir aid rid outputIndex false =
      Except.error (PyErr.analysisItemMissing "Qsub log dir not found for the analysis") ∧
    ∀ (fs2 : FS) (dir2 aid2 rid2 : String) (idx2 : List String) (a2 : Analysis),
      pathExists fs2 dir2 = false →
      mkAnalysis fs2 dir2 aid2 rid2 idx2 false = Except.ok a2 →
      a2.isValid = some false := by
  constructor
  · have hnil := getDirs_initAnalysis_nil fs dir aid rid outputIndex hsub "logs-qsub"
    have herr := validateA_of_logdir_none fs (initAnalysis fs dir aid rid outputIndex)
      (by rw [hnil]; rfl)
    unfold mkAnalysis
    rcases hv : validateA fs (initAnalysis fs dir aid rid outputIndex) with ⟨r, vs⟩
    rw [hv] at herr
    cases r with
    | error e =>
      simp only [Bool.false_eq_true, if_false, hv]
      simpa using herr.1
    | ok b => simp at herr
  · intro fs2 dir2 aid2 rid2 idx2 a2 hex hmk
    unfold mkAnalysis at hmk
    simp only [Bool.false_eq_true, if_false] at hmk
    unfold validateA at hmk
    cases hq : checkQsubLogErrorsPresent fs2 (initAnalysis fs2 dir2 aid2 rid2 idx2) none ["ERROR:"] with
    | error e => rw [hq] at hmk; simp at hmk
    | ok qerr =>
      rw [hq] at hmk
      cases hs : summaryCombinedContainsErrors fs2 (initAnalysis fs2 dir2 aid2 rid2 idx2) none "X" with
      | error e => rw [hs] at hmk; simp at hmk
      | ok serr =>
        rw [hs] at hmk
        simp only [Except.ok.injEq] at hmk
        subst hmk
        simp [withValidation, initAnalysis, hex]

/-- Witness for C3 at a concrete empty filesystem. -/
theorem construction_fails_fast_on_missing_root_witness :
    mkAnalysis ⟨[]⟩ "/r" "A" "R" ["logs-qsub"] false =
      Except.error (PyErr.analysisItemMissing "Qsub log dir not found for the analysis") :=
  (construction_fails_fast_on_missing_root ⟨[]⟩ "/r" "A" "R" ["logs-qsub"]
    (fun e he => absurd he (List.not_mem_nil e))).1

/-- Witness for C7 at a concrete filesystem, schema and key. -/
theorem dirs_registry_total_over_schema_witness :
    lookupAssoc
      (initAnalysis ⟨[⟨"/r", FKind.dir, []⟩, ⟨"/r/BAM-DD", FKind.dir, []⟩]⟩
        "/r" "A" "R" ["BAM-DD", "logs-qsub"]).dirs "BAM-DD" =
      some (findAll ⟨[⟨"/r", FKind.dir, []⟩, ⟨"/r/BAM-DD", FKind.dir, []⟩]⟩
        "/r" ["BAM-DD"] [] FKind.dir false (some 1) true) :=
  dirs_registry_total_over_schema
    ⟨[⟨"/r", FKind.dir, []⟩, ⟨"/r/BAM-DD", FKind.dir, []⟩]⟩
    "/r" "A" "R" ["BAM-DD", "logs-qsub"] true _ "BAM-DD" rfl
    (List.mem_cons_self _ _) (by simp)

theorem anyFileHasError_ok_false (fs : FS) (pats : List String) (l : List String)
    (h : ∀ f ∈ l, ∃ ls, readLines fs f = some ls ∧
      ∀ s ∈ ls, pats.any (fun p => containsSub p s) = false) :
    anyFileHasError fs pats l = Except.ok false := by
  induction l with
  | nil => rfl
  | cons f rest ih =>
    obtain ⟨ls, hr, hls⟩ := h f (List.mem_cons_self f rest)
    have hrest := ih (fun g hg => h g (List.mem_cons_of_mem f hg))
    have hany : ls.any (fun s => pats.any (fun p => containsSub p s)) = false := by
      simp only [List.any_eq_false]
      intro s hs
      simp [hls s hs]
    simp [anyFileHasError, hr, hrest, hany, Except.map]

theorem collectSummaryErrors_ok_nil (pat : String) (rows : List Row)
    (hk : ∀ row ∈ rows, (lookupAssoc row "#SAMPLE").isSome = true)
    (hclean : ∀ row ∈ rows, ∀ p ∈ row, p.1 ≠ "#SAMPLE" → p.2 ≠ pat) :
    collectSummaryErrors pat rows = Except.ok [] := by
  induction rows with
  | nil => rfl
  | cons row rest ih =>
    obtain ⟨sid, hsid⟩ := Option.isSome_iff_exists.mp (hk row (List.mem_cons_self row rest))
    have hoff : (row.filter (fun p => decide (p.1 ≠ "#SAMPLE"))).any
        (fun p => decide (p.2 = pat)) = false := by
      simp only [List.any_eq_false, List.mem_filter]
      rintro p ⟨hp, hne⟩
      have hcl := hclean row (List.mem_cons_self row rest) p hp (by simpa using hne)
      simp [hcl]
    have hrest := ih (fun r hr => hk r (List.mem_cons_of_mem row hr))
      (fun r hr => hclean r (List.mem_cons_of_mem row hr))
    simp only [collectSummaryErrors, hsid, hrest]
    simp only [hoff]
    simp [Except.map]

/-- Claim C1: for an analysis whose root exists, whose four static files
exist, whose resolved queue-log directory holds log files free of the
`ERROR:` marker, and whose summary table has no `X` cell outside the
`#SAMPLE` column, `validate()` returns `true` with four `true` statuses
recorded; and in general, whenever `validate()` returns a value, that value
is the conjunction of the statuses of all recorded checks. -/
theorem validate_true_and_is_conjunction_of_checks
    (fs : FS) (a : Analysis) (d : String) (rows : List Row)
    (hdir : pathExists fs a.dir = true)
    (hstatic : ∀ p ∈ expectedStaticFiles a.dir, pathExists fs p.2 = true)
    (hlogdir : listNone (getDirs a "logs-qsub") = some d)
    (hlogs : findAll fs d [] [] FKind.file false none false ≠ [])
    (hclean : ∀ f ∈ findAll fs d [] [] FKind.file false none false,
      ∃ ls, readLines fs f = some ls ∧ ∀ s ∈ ls, containsSub "ERROR:" s = false)
    (hsum : getSummaryCombinedContents fs a none = Except.ok rows)
    (hkeys : ∀ row ∈ rows, (lookupAssoc row "#SAMPLE").isSome = true)
    (hnoX : ∀ row ∈ rows, ∀ p ∈ row, p.1 ≠ "#SAMPLE" → p.2 ≠ "X") :
    (validateA fs a).1 = Except.ok true ∧
    (validateA fs a).2.map (fun p => (p.1, p.2.status)) =
      [("dir_exists", true), ("expected_static_files_exist", true),
       ("no_qsub_log_errors_present", true), ("no_summary_combined_errors", true)] ∧
    ∀ (fs2 : FS) (a2 : Analysis) (b : Bool),
      (validateA fs2 a2).1 = Except.ok b →
      b = ((validateA fs2 a2).2.map (fun p => p.2.status)).all id := by
  have hfiles : anyFileHasError fs ["ERROR:"]
      (findAll fs d [] [] FKind.file false none false) = Except.ok false := by
    apply anyFileHasError_ok_false
    intro f hf
    obtain ⟨ls, hr, hls⟩ := hclean f hf
    exact ⟨ls, hr, fun s hs => by simp [hls s hs]⟩
  have hq : checkQsubLogErrorsPresent fs a none ["ERROR:"] = Except.ok false := by
    have hget : getQsubLogfiles fs a none =
        Except.ok (findAll fs d [] [] FKind.file false none false) := by
      simp [getQsubLogfiles, hlogdir]
    simp [checkQsubLogErrorsPresent, hget, Bind.bind, Except.bind, hlogs, hfiles]
  have hs4 : summaryCombinedContainsErrors fs a none "X" = Except.ok false := by
    simp [summaryCombinedContainsErrors, hsum, Bind.bind, Except.bind,
      collectSummaryErrors_ok_nil "X" rows hkeys hnoX]
  have hst : ((expectedStaticFiles a.dir).map
      (fun p => (p.1, p.2, pathExists fs p.2))).all (fun t => t.2.2) = true := by
    rw [List.all_eq_true]
    intro t ht
    rw [List.mem_map] at ht
    obtain ⟨p, hp, rfl⟩ := ht
    simpa using hstatic p hp
  refine ⟨?_, ?_, ?_⟩
  · unfold validateA
    rw [hq, hs4]
    simp [hdir, hst]
  · unfold validateA
    rw [hq, hs4]
    simp [hdir, hst]
  · intro fs2 a2 b hb
    unfold validateA at hb ⊢
    cases hq2 : checkQsubLogErrorsPresent fs2 a2 none ["ERROR:"] with
    | error e => rw [hq2] at hb; simp at hb
    | ok qerr =>
      rw [hq2] at hb
      cases hs2 : summaryCombinedContainsErrors fs2 a2 none "X" with
      | error e => rw [hs2] at hb; simp at hb
      | ok serr =>
        rw [hs2] at hb
        simp only [Except.ok.injEq] at hb
        subst hb
        simp

/-- Claim C6 (amended): the `dir_exists` check is always recorded and its
status equals the bare `os.path.exists` test on `root_dir` — existence of any
filesystem object, with no directory-ness requirement. -/
theorem dir_exists_check_records_bare_existence (fs : FS) (a : Analysis) :
    lookupAssoc (validateA fs a).2 "dir_exists" =
      some ⟨pathExists fs a.dir,
        "Whether or not the analysis directory (" ++ a.dir ++ ") exists"⟩ := by
  unfold validateA
  cases checkQsubLogErrorsPresent fs a none ["ERROR:"] with
  | error e => simp [lookupAssoc]
  | ok qerr =>
    cases summaryCombinedContainsErrors fs a none "X" with
    | error e => simp [lookupAssoc]
    | ok serr => simp [lookupAssoc]

/-- Counterexample to claim C6 as stated: a root path that exists on disk as
a regular file (not a directory) still gets `dir_exists` status `true`, where
the claim requires status `false`. -/
theorem dir_exists_check_true_on_file_root :
    pathExists ⟨[⟨"/r", FKind.file, []⟩]⟩ "/r" = true ∧
    isDirAt ⟨[⟨"/r", FKind.file, []⟩]⟩ "/r" = false ∧
    lookupAssoc
      (validateA ⟨[⟨"/r", FKind.file, []⟩]⟩
        (initAnalysis ⟨[⟨"/r", FKind.file, []⟩]⟩ "/r" "A" "R" [])).2 "dir_exists" =
      some ⟨true, "Whether or not the analysis directory (/r) exists"⟩ :=
  ⟨rfl, rfl, rfl⟩

/-- Witness for C1 on the healthy fixture tree. -/
theorem validate_true_and_is_conjunction_of_checks_witness :
    (validateA fixtureFS fixtureAnalysis).1 = Except.ok true :=
  (validate_true_and_is_conjunction_of_checks fixtureFS fixtureAnalysis "/r/logs-qsub"
    [[("#SAMPLE", "S1"), ("QC", "ok")], [("#SAMPLE", "S2"), ("QC", "ok")]]
    rfl (by decide) rfl (by decide)
    (by
      intro f hf
      rw [show findAll fixtureFS "/r/logs-qsub" [] [] FKind.file false none false =
        ["/r/logs-qsub/log1.txt"] from rfl] at hf
      obtain rfl := List.mem_singleton.mp hf
      exact ⟨["all good"], rfl, by decide⟩)
    rfl (by decide) (by decide)).1

theorem csvSplit_ne_nil (l : String) (h : l ≠ "") : csvSplit l ≠ [] := by
  have hd : l.data ≠ [] := fun hdata => h (by
    cases l with
    | mk data => cases hdata; rfl)
  unfold csvSplit
  rw [if_neg hd]
  simp only [ne_eq, List.map_eq_nil_iff]
  unfold List.splitOn
  exact List.splitOnP_ne_nil _ l.data

theorem firstCols_ok (lines : List String) (h : ∀ l ∈ lines, l ≠ "") :
    firstCols lines = Except.ok (lines.map firstField) := by
  induction lines with
  | nil => rfl
  | cons l rest ih =>
    have hne : csvSplit l ≠ [] := csvSplit_ne_nil l (h l (List.mem_cons_self l rest))
    have hrest := ih (fun g hg => h g (List.mem_cons_of_mem l hg))
    cases hc : csvSplit l with
    | nil => exact absurd hc hne
    | cons c cs =>
      simp [firstCols, hc, hrest, Except.map, firstField]

/-- Claim C4: the sample-ID derivation returns the de-duplicated first column
of the manifest — on the fixture manifest with first column `S1, S1, S2` it
returns exactly the two identifiers `S1, S2`; a second call returns the same
(hence set-equal) value; and the value is, as a set, invariant under any
permutation of the manifest rows. -/
theorem derive_sample_ids_dedup_and_perm_invariant
    (fs : FS) (a : Analysis) (path : String) (lines lines2 : List String)
    (hpath : lookupAssoc a.staticFiles "samples_fastq_raw" = some path)
    (hread : readLines fs path = some lines)
    (hnb : ∀ l ∈ lines, l ≠ "")
    (hperm : lines.Perm lines2) :
    getSamplesIDsFromSamplesFastqRaw fixtureFS fixtureAnalysis none =
      Except.ok ["S1", "S2"] ∧
    getSamplesIDsFromSamplesFastqRaw fs a none =
      getSamplesIDsFromSamplesFastqRaw fs a none ∧
    getSamplesIDsFromSamplesFastqRaw fs a none =
      Except.ok (lines.map firstField).dedup ∧
    (lines.map firstField).dedup.Nodup ∧
    (lines.map firstField).dedup.toFinset = (lines.map firstField).toFinset ∧
    (firstCols lines2).map List.dedup = Except.ok (lines2.map firstField).dedup ∧
    (lines2.map firstField).dedup.toFinset = (lines.map firstField).dedup.toFinset := by
  have hmain : getSamplesIDsFromSamplesFastqRaw fs a none =
      Except.ok (lines.map firstField).dedup := by
    simp [getSamplesIDsFromSamplesFastqRaw, hpath, hread, firstCols_ok lines hnb, Except.map]
  have hnb2 : ∀ l ∈ lines2, l ≠ "" := fun l hl => hnb l (hperm.mem_iff.mpr hl)
  have hdfin : ∀ m : List String, m.dedup.toFinset = m.toFinset := fun m =>
    List.toFinset.ext (fun x => by simp [List.mem_dedup])
  refine ⟨rfl, rfl, hmain, List.nodup_dedup _, hdfin _, ?_, ?_⟩
  · simp [firstCols_ok lines2 hnb2, Except.map]
  · rw [hdfin, hdfin]
    exact List.toFinset_eq_of_perm _ _ ((hperm.map firstField).symm)

/-- Witness for C4 on the fixture manifest and a reordering of it. -/
theorem derive_sample_ids_dedup_and_perm_invariant_witness :
    getSamplesIDsFromSamplesFastqRaw fixtureFS fixtureAnalysis none =
      Except.ok ["S1", "S2"] :=
  (derive_sample_ids_dedup_and_perm_invariant fixtureFS fixtureAnalysis
    "/r/samples.fastq-raw.csv" ["S1,a.fq", "S1,b.fq", "S2,c.fq"]
    ["S2,c.fq", "S1,a.fq", "S1,b.fq"] rfl rfl (by decide) (by decide)).1

theorem collectSummaryErrors_ok_iff (pat : String) (rows : List Row)
    (hk : ∀ row ∈ rows, (lookupAssoc row "#SAMPLE").isSome = true) :
    ∃ errs, collectSummaryErrors pat rows = Except.ok errs ∧
      ((!errs.isEmpty) = true ↔
        ∃ row ∈ rows, ∃ p ∈ row, p.1 ≠ "#SAMPLE" ∧ p.2 = pat) := by
  induction rows with
  | nil => exact ⟨[], rfl, by simp⟩
  | cons row rest ih =>
    obtain ⟨sid, hsid⟩ := Option.isSome_iff_exists.mp (hk row (List.mem_cons_self row rest))
    obtain ⟨errs, hcol, hiff⟩ := ih (fun r hr => hk r (List.mem_cons_of_mem row hr))
    have hoff_iff : ((row.filter (fun p => decide (p.1 ≠ "#SAMPLE"))).any
        (fun p => decide (p.2 = pat)) = true) ↔
        ∃ p ∈ row, p.1 ≠ "#SAMPLE" ∧ p.2 = pat := by
      simp only [List.any_eq_true, List.mem_filter, decide_eq_true_eq]
      constructor
      · rintro ⟨p, ⟨hp, hne⟩, hpat⟩
        exact ⟨p, hp, by simpa using hne, hpat⟩
      · rintro ⟨p, hp, hne, hpat⟩
        exact ⟨p, ⟨hp, by simpa using hne⟩, hpat⟩
    cases hoff : (row.filter (fun p => decide (p.1 ≠ "#SAMPLE"))).any
        (fun p => decide (p.2 = pat)) with
    | true =>
      refine ⟨sid :: errs, ?_, ?_⟩
      · simp only [collectSummaryErrors, hsid, hcol]
        rw [hoff]
        simp [Except.map]
      · constructor
        · intro _
          exact ⟨row, List.mem_cons_self row rest, hoff_iff.mp hoff⟩
        · intro _
          simp
    | false =>
      refine ⟨errs, ?_, ?_⟩
      · simp only [collectSummaryErrors, hsid, hcol]
        rw [hoff]
        simp [Except.map]
      · rw [hiff]
        constructor
        · rintro ⟨r, hr, hoffr⟩
          exact ⟨r, List.mem_cons_of_mem row hr, hoffr⟩
        · rintro ⟨r, hr, hoffr⟩
          rcases List.mem_cons.mp hr with hcase | hcase
          · subst hcase
            rw [hoff_iff.mpr hoffr] at hoff
            exact absurd hoff (by simp)
          · exact ⟨r, hcase, hoffr⟩

/-- Claim C5 (amended): the `no_summary_combined_errors` status is false
exactly when some row holds the error token outside the identifier column;
the offending identifiers, however, are only written to the log — the note
recorded in the validations mapping is the fixed string
`Whether or not entries are present in the summary combined file` and lists
no identifiers. -/
theorem summary_check_status_iff_and_note_fixed :
    (∀ (pat : String) (rows : List Row),
      (∀ row ∈ rows, (lookupAssoc row "#SAMPLE").isSome = true) →
      ∃ errs, collectSummaryErrors pat rows = Except.ok errs ∧
        ((!errs.isEmpty) = true ↔
          ∃ row ∈ rows, ∃ p ∈ row, p.1 ≠ "#SAMPLE" ∧ p.2 = pat)) ∧
    (∀ (fs : FS) (a : Analysis) (qerr serr : Bool),
      checkQsubLogErrorsPresent fs a none ["ERROR:"] = Except.ok qerr →
      summaryCombinedContainsErrors fs a none "X" = Except.ok serr →
      lookupAssoc (validateA fs a).2 "no_summary_combined_errors" =
        some ⟨!serr,
          "Whether or not entries are present in the summary combined file"⟩) := by
  constructor
  · exact collectSummaryErrors_ok_iff
  · intro fs a qerr serr hq hs
    unfold validateA
    rw [hq, hs]
    rfl

/-- Witness for C5 (amended) on the fixture tree with the `X` summary
cell. -/
theorem summary_check_status_iff_and_note_fixed_witness :
    lookupAssoc (validateA fixtureFSX fixtureAnalysisX).2 "no_summary_combined_errors" =
      some ⟨!true,
        "Whether or not entries are present in the summary combined file"⟩ :=
  summary_check_status_iff_and_note_fixed.2 fixtureFSX fixtureAnalysisX false true rfl rfl

/-- Counterexample to claim C5 as stated: on a summary table whose `S1` row
holds an `X` cell in the `QC` column, the recorded check status is `false`
(as the claim says) but the note recorded in the validations mapping is the
fixed descriptive string, which does not list the offending identifier `S1`,
contradicting the claim's note clause. -/
theorem summary_check_note_lists_no_offenders :
    lookupAssoc (validateA fixtureFSX fixtureAnalysisX).2 "no_summary_combined_errors" =
      some ⟨false, "Whether or not entries are present in the summary combined file"⟩ ∧
    getSummaryCombinedContents fixtureFSX fixtureAnalysisX none =
      Except.ok [[("#SAMPLE", "S1"), ("QC", "X")], [("#SAMPLE", "S2"), ("QC", "ok")]] ∧
    containsSub "S1" "Whether or not entries are present in the summary combined file" =
      false :=
  ⟨rfl, rfl, rfl⟩

/-- Claim C8 (amended): the sample-ID derivation raises `AnalysisItemMissing`
when the raw-fastq manifest path is unset in the static-files mapping; when
the path is set but the file is unreadable, the `open` call fails with an
ordinary I/O error instead, not with `AnalysisItemMissing`. -/
theorem derive_sample_ids_missing_manifest_errors :
    (∀ (fs : FS) (a : Analysis),
      lookupAssoc a.staticFiles "samples_fastq_raw" = none →
      getSamplesIDsFromSamplesFastqRaw fs a none =
        Except.error (PyErr.analysisItemMissing
          "The \"samples_fastq_raw\" file could not be found for the analysis.")) ∧
    (∀ (fs : FS) (a : Analysis) (p : String),
      lookupAssoc a.staticFiles "samples_fastq_raw" = some p →
      readLines fs p = none →
      getSamplesIDsFromSamplesFastqRaw fs a none = Except.error (PyErr.ioError p)) := by
  constructor
  · intro fs a h
    simp [getSamplesIDsFromSamplesFastqRaw, h]
  · intro fs a p hp hr
    simp [getSamplesIDsFromSamplesFastqRaw, hp, hr]

/-- Witness for C8 (amended): an analysis whose static-files mapping was
emptied gets the `AnalysisItemMissing` error. -/
theorem derive_sample_ids_missing_manifest_errors_witness :
    getSamplesIDsFromSamplesFastqRaw fixtureFSBare
      ⟨"A", "/r", "R", [], [], [], [], none, []⟩ none =
      Except.error (PyErr.analysisItemMissing
        "The \"samples_fastq_raw\" file could not be found for the analysis.") :=
  derive_sample_ids_missing_manifest_errors.1 fixtureFSBare
    ⟨"A", "/r", "R", [], [], [], [], none, []⟩ rfl

/-- Counterexample to claim C8 as stated: on a bare root whose manifest file
is absent (hence unreadable), the derivation fails with the I/O error from
`open`, not with the `AnalysisItemMissing` condition the claim requires. -/
theorem derive_sample_ids_unreadable_manifest_io_error :
    getSamplesIDsFromSamplesFastqRaw fixtureFSBare fixtureAnalysisBare none =
      Except.error (PyErr.ioError "/r/samples.fastq-raw.csv") ∧
    getSamplesIDsFromSamplesFastqRaw fixtureFSBare fixtureAnalysisBare none ≠
      Except.error (PyErr.analysisItemMissing
        "The \"samples_fastq_raw\" file could not be found for the analysis.") :=
  ⟨rfl, by
    intro h
    have h0 : (Except.error (PyErr.ioError "/r/samples.fastq-raw.csv") :
        Except PyErr (List String)) =
        Except.error (PyErr.analysisItemMissing
          "The \"samples_fastq_raw\" file could not be found for the analysis.") := h
    simp at h0⟩

/-- Claim C9: a sample context with id `S1` looking up `*.bam` outputs of a
resolved step directory holding `S1.bam` and `S2.bam` gets exactly the path
of `S1.bam`, because the search requires both the caller's pattern and the
unit's own `S1*` pattern to match; and whenever the step's registry entry
does not reduce to a single directory, the lookup raises
`AnalysisItemMissing` instead. -/
theorem sample_output_lookup_requires_both_patterns :
    getOutputFiles fixtureFS fixtureSample "BAM-DD" "*.bam" =
      Except.ok ["/r/BAM-DD/S1.bam"] ∧
    ∀ (fs : FS) (s : Sample) (step pat : String),
      listNone ((lookupAssoc s.analysisConfig.dirs step).getD []) = none →
      getOutputFiles fs s step pat =
        Except.error (PyErr.analysisItemMissing
          ("search_dir not found for " ++ step ++ ", dir: None")) := by
  constructor
  · rfl
  · intro fs s step pat h
    simp [getOutputFiles, h]

/-- Witness for C9: the unresolved-step branch on a sample with an empty
directories registry. -/
theorem sample_output_lookup_requires_both_patterns_witness :
    getOutputFiles fixtureFSBare fixtureSampleNoDirs "BAM-DD" "*.bam" =
      Except.error (PyErr.analysisItemMissing
        ("search_dir not found for " ++ "BAM-DD" ++ ", dir: None")) :=
  sample_output_lookup_requires_both_patterns.2 fixtureFSBare fixtureSampleNoDirs
    "BAM-DD" "*.bam" rfl

theorem samplesLoop_ok (a : Analysis) (cfg : AnalysisConfig)
    (hcfg : getAnalysisConfig a = Except.ok cfg) (ids : List String) :
    samplesLoop a ids = Except.ok (ids.map (fun i => mkSample i cfg)) := by
  induction ids with
  | nil => rfl
  | cons i rest ih =>
    simp [samplesLoop, hcfg, ih, Bind.bind, Except.bind, Except.map]

/-- Claim C10: a debug-mode construction leaves `is_valid` unset, so
`get_analysis_config` fails with the attribute-access error, and so does
`get_samples` as soon as it builds its first sample context from the derived
identifiers; after a completed non-debug construction, `is_valid` is set and
these operations succeed (`get_analysis_config` returns a snapshot, and
`get_samples` returns one sample per derived identifier). -/
theorem debug_mode_leaves_is_valid_unset :
    (∀ (fs : FS) (dir aid rid : String) (idx : List String) (a : Analysis),
      mkAnalysis fs dir aid rid idx true = Except.ok a →
      a.isValid = none ∧
      getAnalysisConfig a = Except.error (PyErr.attributeError "is_valid")) ∧
    (∀ (fs : FS) (a : Analysis) (i : String) (rest : List String),
      a.isValid = none →
      getSamplesIDsFromSamplesFastqRaw fs a none = Except.ok (i :: rest) →
      getSamples fs a none = Except.error (PyErr.attributeError "is_valid")) ∧
    (∀ (fs : FS) (dir aid rid : String) (idx : List String) (a : Analysis) (ids : List String),
      mkAnalysis fs dir aid rid idx false = Except.ok a →
      getSamplesIDsFromSamplesFastqRaw fs a none = Except.ok ids →
      (∃ b, a.isValid = some b) ∧
      (∃ cfg, getAnalysisConfig a = Except.ok cfg ∧
        getSamples fs a none = Except.ok (ids.map (fun i => mkSample i cfg)))) := by
  refine ⟨?_, ?_, ?_⟩
  · intro fs dir aid rid idx a hmk
    have ha : a = initAnalysis fs dir aid rid idx := by
      simpa [mkAnalysis] using hmk.symm
    subst ha
    exact ⟨rfl, rfl⟩
  · intro fs a i rest hvalid hids
    simp [getSamples, hids, Bind.bind, Except.bind, samplesLoop,
      getAnalysisConfig, hvalid]
  · intro fs dir aid rid idx a ids hmk hids
    have hval : ∃ b, a.isValid = some b := by
      unfold mkAnalysis at hmk
      simp only [Bool.false_eq_true, if_false] at hmk
      rcases hv : validateA fs (initAnalysis fs dir aid rid idx) with ⟨r, vs⟩
      rw [hv] at hmk
      cases r with
      | error e => simp at hmk
      | ok b =>
        simp only [Except.ok.injEq] at hmk
        subst hmk
        exact ⟨b, rfl⟩
    obtain ⟨b, hb⟩ := hval
    have hcfg : getAnalysisConfig a =
        Except.ok ⟨a.aid, a.dir, a.resultsId, a.dirs, a.files, a.staticFiles, b⟩ := by
      simp [getAnalysisConfig, hb]
    refine ⟨⟨b, hb⟩, ⟨a.aid, a.dir, a.resultsId, a.dirs, a.files, a.staticFiles, b⟩,
      hcfg, ?_⟩
    simp [getSamples, hids, Bind.bind, Except.bind, samplesLoop_ok a _ hcfg ids]

/-- Witness for C10: a concrete debug-mode construction with unset
`is_valid`. -/
theorem debug_mode_leaves_is_valid_unset_witness :
    (initAnalysis fixtureFSBare "/r" "A" "R" []).isValid = none ∧
    getAnalysisConfig (initAnalysis fixtureFSBare "/r" "A" "R" []) =
      Except.error (PyErr.attributeError "is_valid") :=
  debug_mode_leaves_is_valid_unset.1 fixtureFSBare "/r" "A" "R" []
    (initAnalysis fixtureFSBare "/r" "A" "R" []) rfl

end SnsClasses
